import Mathlib

/-!
Verification of the MediChain symptom-triage pipeline.

Shallow embedding of the diagnosis components of the repository:
the keyword-based symptom parsers (`symptom_parser.py`, `medichain_ai.py`,
`comprehensive_ai_diagnosis.py`), the two confidence boosters
(`enhanced_confident_ai_server.py` and `comprehensive_ai_diagnosis.py`),
the unknown-case gate of `ai_diagnosis.py`, and the retraining acceptance
logic of `continuous_learning.py`.  Probabilities and multipliers are
modelled as exact rationals; Python dicts keyed by fixed string tables are
modelled as association lists in insertion order.
-/

namespace Medichain

/-- Character class of Python's regex `\w` (word character) over the ASCII
texts this parser handles. -/
def isWordChar (c : Char) : Bool := c.isAlphanum || c == '_'

/-- Character class of Python's regex `\s` and of `str.strip`: the whitespace
characters space, tab, newline, carriage return, vertical tab, form feed. -/
def isPySpace (c : Char) : Bool :=
  c == ' ' || c == '\t' || c == '\n' || c == '\r' || c == '\x0b' || c == '\x0c'

/-- Python's `str.strip()` on a character list. -/
def pyStrip (s : List Char) : List Char :=
  ((s.dropWhile isPySpace).reverse.dropWhile isPySpace).reverse

/-- Python's `str.lower()` over the ASCII texts these parsers handle, as a
character list. -/
def pyLower (s : String) : List Char :=
  s.toList.map Char.toLower

/-- The apostrophe character, used inside a few keyword strings of the source
tables. -/
def apos : String := String.singleton (Char.ofNat 39)

/-- Does `kw` occur as a contiguous run starting at some position of the
text? -/
def infixHere (kw : List Char) : List Char → Bool
  | [] => kw.isPrefixOf []
  | c :: rest => kw.isPrefixOf (c :: rest) || infixHere kw rest

/-- Python's substring test `kw in text`. -/
def strIn (kw : String) (text : List Char) : Bool :=
  infixHere kw.toList text

/-- Does `kw` occur at the current position (whose preceding character is
`prev`, `none` at the start of the text) with a word boundary on both sides?
Models `\b kw \b` for the keyword tables below, whose entries all begin and
end with word characters. -/
def wbHere (kw : List Char) (prev : Option Char) (rest : List Char) : Bool :=
  (match prev with | none => true | some c => !isWordChar c)
  && kw.isPrefixOf rest
  && (match (rest.drop kw.length).head? with | none => true | some c => !isWordChar c)

/-- Scan every position of the text for a word-boundary occurrence of `kw`. -/
def wbSearchAux (kw : List Char) : Option Char → List Char → Bool
  | prev, [] => wbHere kw prev []
  | prev, c :: rest => wbHere kw prev (c :: rest) || wbSearchAux kw (some c) rest

/-- Python's `re.search(r'\b' + re.escape(kw) + r'\b', text)` as a Boolean. -/
def wbSearch (kw : String) (text : List Char) : Bool :=
  wbSearchAux kw.toList none text

/-- Does `m` followed by one or more whitespace characters followed by `kw`
occur at the current position, with word boundaries around the whole match?
Models `\b m \s+ kw \b`: as `kw` starts with a word character, the greedy
whitespace run is exact. -/
def modHere (m kw : List Char) (prev : Option Char) (rest : List Char) : Bool :=
  (match prev with | none => true | some c => !isWordChar c)
  && m.isPrefixOf rest
  && (match (rest.drop m.length).head? with
      | some c =>
        isPySpace c
        && (let r2 := (rest.drop m.length).dropWhile isPySpace
            kw.isPrefixOf r2
            && (match (r2.drop kw.length).head? with
                | none => true
                | some c2 => !isWordChar c2))
      | none => false)

/-- Scan every position for the modifier-then-keyword pattern. -/
def modSearchAux (m kw : List Char) : Option Char → List Char → Bool
  | prev, [] => modHere m kw prev []
  | prev, c :: rest => modHere m kw prev (c :: rest) || modSearchAux m kw (some c) rest

/-- Python's `re.search(r'\b' + mod + r'\s+' + kw + r'\b', text)` as a
Boolean. -/
def modSearch (m kw : String) (text : List Char) : Bool :=
  modSearchAux m.toList kw.toList none text

/-- Intensity buckets of the parsers: `mild`, `moderate` (the default),
`severe`. -/
inductive Intensity where
  | mild
  | moderate
  | severe
  deriving DecidableEq, Repr

namespace SymptomParser

/-- Keyword table of `SymptomParser.symptom_keywords` (symptom_parser.py),
in source order. -/
def symptom_keywords : List (String × List String) :=
  [("fever",
    ["fever", "high temperature", "hot", "burning up", "temperature",
     "chills", "feverish", "high temp", "hot flashes", "pyrexia", "febrile"]),
   ("cough",
    ["cough", "coughing", "hack", "wheeze", "phlegm", "mucus",
     "chest congestion", "productive cough", "dry cough", "barking cough",
     "persistent cough", "hacking"]),
   ("fatigue",
    ["tired", "fatigue", "exhausted", "weak", "weary", "drained",
     "lethargic", "sleepy", "worn out", "no energy", "exhaustion",
     "lack of energy", "tired all the time"]),
   ("shortness_of_breath",
    ["breathless", "short of breath", "breathing difficulty", "wheezing",
     "gasping", "can" ++ apos ++ "t breathe", "trouble breathing", "dyspnea", "winded",
     "hard to breathe", "difficulty breathing", "labored breathing",
     "heavy breathing", "panting", "shortness of breath", "breath"]),
   ("headache",
    ["headache", "head pain", "migraine", "head pressure", "skull pain",
     "temple pain", "cephalgia", "head ache", "throbbing head", "tension headache",
     "sinus headache", "head throbbing", "pounding head", "head is pounding", "pounding"]),
   ("sore_throat",
    ["sore throat", "throat pain", "scratchy throat", "swollen throat",
     "throat irritation", "pharyngitis", "throat ache", "painful swallowing",
     "throat discomfort", "burning throat", "irritated throat"])]

/-- Modifier table of `SymptomParser.modifiers` with its intensity values, in
insertion order. -/
def modifiers : List (String × ℚ) :=
  [("mild", 1/2), ("slight", 3/10), ("little", 1/5), ("moderate", 7/10),
   ("bad", 4/5), ("severe", 1), ("intense", 1), ("extreme", 1),
   ("very", 9/10), ("really", 9/10), ("extremely", 1), ("slightly", 3/10)]

/-- Value stored for a matched keyword: the first modifier (in table order)
that immediately precedes the keyword sets the value, else the default 1.0. -/
def modifierValue (kw : String) (text : List Char) : ℚ :=
  match modifiers.find? (fun m => modSearch m.1 kw text) with
  | some m => m.2
  | none => 1

/-- Value of one feature: scan its keyword variants in order; the first
word-boundary hit decides, no hit leaves the value 0. -/
def featureValue (kws : List String) (text : List Char) : ℚ :=
  match kws.find? (fun kw => wbSearch kw text) with
  | some kw => modifierValue kw text
  | none => 0

/-- `SymptomParser.parse_symptoms`: the resulting dictionary as a total
function (the dict is keyed by `feature_names` and read with `.get(f, 0.0)`,
so every feature off the schema reads 0).  Empty input returns the all-zero
dictionary; otherwise the text is lowercased and stripped and each schema
feature with a keyword entry is scanned. -/
def parse_symptoms (feature_names : List String) (symptom_text : String)
    (feature : String) : ℚ :=
  if symptom_text = "" then 0
  else
    let text := pyStrip (pyLower symptom_text)
    if feature ∈ feature_names then
      match symptom_keywords.lookup feature with
      | some kws => featureValue kws text
      | none => 0
    else 0

/-- `SymptomParser.get_feature_vector`: the parsed values in the exact order
of `feature_names`. -/
def get_feature_vector (feature_names : List String) (symptom_text : String) :
    List ℚ :=
  feature_names.map (parse_symptoms feature_names symptom_text)

end SymptomParser

namespace MediChainAI

/-- Keyword table of `MediChainAI.symptom_keywords` (medichain_ai.py), in
source order. -/
def symptom_keywords : List (String × List String) :=
  [("fever", ["fever", "hot", "temperature", "burning up", "chills", "feverish",
              "high temp", "pyrexia", "febrile"]),
   ("cough", ["cough", "coughing", "hack", "wheeze", "phlegm", "mucus",
              "chest congestion", "productive cough", "dry cough"]),
   ("fatigue", ["tired", "fatigue", "exhausted", "weak", "weary", "drained",
                "lethargic", "sleepy", "worn out", "energy"]),
   ("shortness_of_breath", ["breathless", "short of breath", "breathing difficulty",
                            "wheezing", "gasping", "chest tight", "dyspnea", "winded"]),
   ("headache", ["headache", "head pain", "migraine", "head pressure", "skull pain",
                 "temple pain", "cephalgia", "head ache"]),
   ("sore_throat", ["sore throat", "throat pain", "scratchy throat", "swollen throat",
                    "throat irritation", "pharyngitis", "throat ache"]),
   ("nausea", ["nausea", "nauseous", "sick", "queasy", "stomach upset",
               "feel like vomiting", "want to throw up", "motion sickness"]),
   ("dizziness", ["dizzy", "dizziness", "lightheaded", "vertigo", "spinning",
                  "balance problems", "unsteady", "wobbly"]),
   ("body_aches", ["body aches", "muscle pain", "joint pain", "soreness", "stiffness",
                   "aching muscles", "myalgia", "muscle soreness"]),
   ("runny_nose", ["runny nose", "stuffy nose", "nasal congestion", "sniffles",
                   "blocked nose", "nose running", "rhinorrhea"]),
   ("chest_pain", ["chest pain", "chest pressure", "heart pain", "chest tightness",
                   "chest discomfort", "angina", "chest ache"]),
   ("diarrhea", ["diarrhea", "loose stools", "watery stools", "frequent bowel movements",
                 "stomach runs", "digestive issues"]),
   ("loss_of_taste", ["loss of taste", "cant taste", "no taste", "taste gone",
                      "ageusia", "taste buds not working"]),
   ("loss_of_smell", ["loss of smell", "cant smell", "no smell", "smell gone",
                      "anosmia", "nose cant smell"])]

/-- `MediChainAI.parse_symptoms_from_text` for one symptom key: lowercase the
text and set the flag to 1 at the first keyword found by plain substring
containment, else 0 (keys outside the table read 0). -/
def parse_symptoms_from_text (text : String) (symptom : String) : Nat :=
  match symptom_keywords.lookup symptom with
  | some kws => if kws.any (fun k => strIn k (pyLower text)) then 1 else 0
  | none => 0

end MediChainAI

/-- `ParsedObservation`: the result record of
`EnhancedSymptomParser.parse_comprehensive`. -/
structure ParsedObservation where
  symptoms : List String
  duration_days : Int
  intensity : Intensity
  raw_text : String
  deriving DecidableEq, Repr

namespace EnhancedSymptomParser

/-- Keyword table of `EnhancedSymptomParser.symptom_keywords`
(comprehensive_ai_diagnosis.py), in source order. -/
def symptom_keywords : List (String × List String) :=
  [("fever",
    ["fever", "temperature", "hot", "burning up", "feverish",
     "high temp", "pyrexia", "febrile", "warm", "overheated",
     "elevated temperature", "running a fever"]),
   ("cough",
    ["cough", "coughing", "hack", "dry cough", "wet cough",
     "productive cough", "persistent cough", "hacking", "barking cough",
     "chronic cough", "whooping", "tickle in throat"]),
   ("fatigue",
    ["tired", "fatigue", "exhausted", "weakness", "weary",
     "drained", "lethargic", "sleepy", "worn out", "depleted",
     "energy loss", "run down", "beat", "wiped out"]),
   ("shortness_of_breath",
    ["shortness of breath", "breathless", "difficulty breathing",
     "hard to breathe", "winded", "dyspnea", "suffocating", "gasping",
     "out of breath", "breathing problems", "air hunger"]),
   ("headache",
    ["headache", "head pain", "migraine", "head hurts",
     "skull pain", "cranial pain", "temple pain", "forehead pain",
     "tension headache", "cluster headache", "throbbing head"]),
   ("sore_throat",
    ["sore throat", "throat pain", "scratchy throat", "throat hurts",
     "pharyngitis", "swollen throat", "raw throat", "burning throat",
     "irritated throat", "throat inflammation"]),
   ("nausea",
    ["nausea", "nauseous", "queasy", "sick to stomach",
     "feeling sick", "want to vomit", "motion sickness", "car sick",
     "upset stomach", "stomach churning", "feel like throwing up"]),
   ("dizziness",
    ["dizzy", "dizziness", "lightheaded", "vertigo", "spinning",
     "unsteady", "balance problems", "wobbly", "off balance",
     "room spinning", "head spinning", "faint feeling"]),
   ("body_aches",
    ["body aches", "muscle aches", "joint pain", "aching",
     "soreness", "stiffness", "muscle pain", "joint aches", "myalgia",
     "all over pain", "generalized pain", "muscle soreness"]),
   ("runny_nose",
    ["runny nose", "nasal discharge", "stuffy nose", "congestion",
     "blocked nose", "rhinorrhea", "sniffles", "post nasal drip",
     "nasal congestion", "stuffed up", "nose running"]),
   ("chest_pain",
    ["chest pain", "chest discomfort", "chest tightness",
     "heart pain", "sternum pain", "ribcage pain", "breathing pain",
     "chest pressure", "chest burning", "sharp chest pain"]),
   ("diarrhea",
    ["diarrhea", "loose stools", "watery stools", "frequent bowel",
     "runny stools", "liquid stool", "bowel problems", "stomach runs",
     "loose bowel movements", "frequent bathroom trips"]),
   ("loss_of_taste",
    ["loss of taste", "can" ++ apos ++ "t taste", "no taste", "taste gone",
     "taste loss", "ageusia", "taste buds not working", "food tasteless",
     "metallic taste", "altered taste"]),
   ("loss_of_smell",
    ["loss of smell", "can" ++ apos ++ "t smell", "no smell", "smell gone",
     "smell loss", "anosmia", "nose not working", "odor loss"])]

/-- `EnhancedSymptomParser._extract_symptoms`: for each key in table order,
the first keyword found by substring containment appends the key once. -/
def extract_symptoms (text : List Char) : List String :=
  (symptom_keywords.filter (fun p => p.2.any (fun k => strIn k text))).map Prod.fst

/-- Numeric value of a leading digit run. -/
def natOfDigits (ds : List Char) : Nat :=
  ds.foldl (fun n c => 10 * n + (c.toNat - 48)) 0

/-- Leftmost-position scanner: try the position matcher at each start
position in turn, exactly like `re.search`. -/
def searchWith (p : List Char → Option Nat) : List Char → Option Nat
  | [] => p []
  | c :: rest =>
    match p (c :: rest) with
    | some n => some n
    | none => searchWith p rest

/-- Match `(\d+)\s*unit` at the current position, returning the digit group. -/
def numUnitHere (unit : List Char) (l : List Char) : Option Nat :=
  let ds := l.takeWhile Char.isDigit
  if ds.isEmpty then none
  else
    let r := (l.dropWhile Char.isDigit).dropWhile isPySpace
    if unit.isPrefixOf r then some (natOfDigits ds) else none

/-- Consume a literal word at the current position. -/
def litP (w : List Char) (l : List Char) : Option (List Char) :=
  if w.isPrefixOf l then some (l.drop w.length) else none

/-- Consume `\s+`: one or more whitespace characters (exact here because
every continuation below starts with a non-space character). -/
def sPlus (l : List Char) : Option (List Char) :=
  match l.head? with
  | some c => if isPySpace c then some (l.dropWhile isPySpace) else none
  | none => none

/-- Match `since\s+(\d+)\s*(day|days)\s+ago` at the current position. -/
def sinceAgoHere (l : List Char) : Option Nat := do
  let r ← litP "since".toList l
  let r ← sPlus r
  let ds := r.takeWhile Char.isDigit
  if ds.isEmpty then none
  else
    let r2 := (r.dropWhile Char.isDigit).dropWhile isPySpace
    match (do
        let r3 ← litP "day".toList r2
        let r4 ← sPlus r3
        let _ ← litP "ago".toList r4
        pure (natOfDigits ds)) with
    | some n => some n
    | none => do
        let r3 ← litP "days".toList r2
        let r4 ← sPlus r3
        let _ ← litP "ago".toList r4
        pure (natOfDigits ds)

/-- Match `w\s+(\d+)\s*(day|days)` at the current position, for the `for` and
`about` duration patterns. -/
def wordNumDayHere (w : List Char) (l : List Char) : Option Nat := do
  let r ← litP w l
  let r ← sPlus r
  let ds := r.takeWhile Char.isDigit
  if ds.isEmpty then none
  else
    let r2 := (r.dropWhile Char.isDigit).dropWhile isPySpace
    if ("day".toList).isPrefixOf r2 then some (natOfDigits ds) else none

/-- `EnhancedSymptomParser._extract_duration`: the ordered pattern list of
`duration_patterns`; the first pattern that matches anywhere wins, and no
match defaults to 7 days. -/
def extract_duration (text : List Char) : Int :=
  match searchWith (numUnitHere "day".toList) text with
  | some n => (n : Int)
  | none =>
  match searchWith (numUnitHere "week".toList) text with
  | some n => (n : Int) * 7
  | none =>
  match searchWith (numUnitHere "month".toList) text with
  | some n => (n : Int) * 30
  | none =>
  match searchWith sinceAgoHere text with
  | some n => (n : Int)
  | none =>
  match searchWith (wordNumDayHere "for".toList) text with
  | some n => (n : Int)
  | none =>
  match searchWith (wordNumDayHere "about".toList) text with
  | some n => (n : Int)
  | none =>
  if strIn "yesterday" text then 1
  else if strIn "today" text then 1
  else if strIn "few days" text then 3
  else if strIn "several days" text then 5
  else if strIn "last week" text then 7
  else if strIn "this week" text then 3
  else if strIn "two weeks" text then 14
  else if strIn "last month" text then 30
  else 7

/-- Mild-bucket keywords of `intensity_patterns`. -/
def intensity_mild : List String :=
  ["mild", "slight", "minor", "light", "gentle", "low",
   "barely", "little bit", "somewhat", "not too bad"]

/-- Moderate-bucket keywords of `intensity_patterns`. -/
def intensity_moderate : List String :=
  ["moderate", "medium", "average", "normal", "typical",
   "noticeable", "considerable", "fair", "decent"]

/-- Severe-bucket keywords of `intensity_patterns`. -/
def intensity_severe : List String :=
  ["severe", "intense", "extreme", "terrible", "awful",
   "excruciating", "unbearable", "very", "really bad", "horrible"]

/-- Keyword-hit count of one bucket: each keyword contained in the text as a
substring counts once. -/
def bucketScore (kws : List String) (text : List Char) : Nat :=
  (kws.filter (fun k => strIn k text)).length

/-- `EnhancedSymptomParser._extract_intensity`: score the three buckets, and
return the first bucket (in the order mild, moderate, severe) attaining the
maximum score when that maximum is positive — Python's `max` over
`dict.items` returns the first maximal item — else the default moderate. -/
def extract_intensity (text : List Char) : Intensity :=
  let sm := bucketScore intensity_mild text
  let so := bucketScore intensity_moderate text
  let ss := bucketScore intensity_severe text
  if 0 < max sm (max so ss) then
    if so ≤ sm ∧ ss ≤ sm then .mild
    else if ss ≤ so then .moderate
    else .severe
  else .moderate

/-- Bucket keyword table selected by an intensity value, used to state which
bucket won the scoring. -/
def bucketOf : Intensity → List String
  | .mild => intensity_mild
  | .moderate => intensity_moderate
  | .severe => intensity_severe

/-- `EnhancedSymptomParser.parse_comprehensive`: join the three text inputs,
lowercase, and extract symptoms, duration and intensity. -/
def parse_comprehensive (symptoms_text duration_text intensity_text : String) :
    ParsedObservation :=
  let full_text := pyLower (symptoms_text ++ " " ++ duration_text ++ " " ++ intensity_text)
  { symptoms := extract_symptoms full_text
    duration_days := extract_duration full_text
    intensity := extract_intensity full_text
    raw_text := symptoms_text }

end EnhancedSymptomParser

namespace ComprehensiveAIDiagnosis

/-- Fixed symptom feature order of
`ComprehensiveAIDiagnosis._create_feature_vector`. -/
def expected_symptoms : List String :=
  ["fever", "cough", "fatigue", "shortness_of_breath", "headache",
   "sore_throat", "nausea", "dizziness", "body_aches", "runny_nose",
   "chest_pain", "diarrhea", "loss_of_taste", "loss_of_smell"]

/-- Numeric encoding of intensity (`intensity_mapping`): mild 1, moderate 2,
severe 3. -/
def intensity_numeric : Intensity → ℚ
  | .mild => 1
  | .moderate => 2
  | .severe => 3

/-- `ComprehensiveAIDiagnosis._create_feature_vector`: 14 symptom presence
flags in fixed order, then the duration in days, then the intensity code. -/
def create_feature_vector (p : ParsedObservation) : List ℚ :=
  expected_symptoms.map (fun s => if s ∈ p.symptoms then 1 else 0)
    ++ [(p.duration_days : ℚ), intensity_numeric p.intensity]

/-- Known symptom combinations of `_apply_confidence_boosting`. -/
def confident_combinations : List (List String) :=
  [["fever", "cough", "fatigue"],
   ["headache", "nausea", "dizziness"],
   ["chest_pain", "shortness_of_breath"],
   ["loss_of_taste", "loss_of_smell"],
   ["sore_throat", "fever", "body_aches"]]

/-- Symptom-count multiplier of `_apply_confidence_boosting`: 1.20 for a
symptom-feature sum of 4 or more, 1.10 for 3, else none. -/
def symptomCountBoost (count : ℚ) : ℚ :=
  if 4 ≤ count then 6/5 else if 3 ≤ count then 11/10 else 1

/-- Duration multiplier of `_apply_confidence_boosting`: 1.08 whenever the
duration is not the 7-day default. -/
def durationBoost (d : Int) : ℚ :=
  if d ≠ 7 then 27/25 else 1

/-- Intensity multiplier of `_apply_confidence_boosting`: 1.06 whenever the
intensity is not the default moderate. -/
def intensityBoost (i : Intensity) : ℚ :=
  if i ≠ .moderate then 53/50 else 1

/-- Pattern multiplier of `_apply_confidence_boosting`: 1.15 when some known
combination is wholly contained in the detected symptoms (the source loop
breaks at the first match, and every match carries the same multiplier). -/
def patternBoost (symptoms : List String) : ℚ :=
  if confident_combinations.any (fun combo => combo.all (fun s => s ∈ symptoms)) then 23/20
  else 1

/-- `ComprehensiveAIDiagnosis._apply_confidence_boosting`: the base
confidence times the four multipliers, capped at 0.95. -/
def apply_confidence_boosting (base_confidence : ℚ) (p : ParsedObservation)
    (feature_vector : List ℚ) : ℚ :=
  min (base_confidence
        * symptomCountBoost (feature_vector.take 14).sum
        * durationBoost p.duration_days
        * intensityBoost p.intensity
        * patternBoost p.symptoms)
    (19/20)

end ComprehensiveAIDiagnosis

namespace ConfidenceBooster

/-- Input record assembled by the `/diagnose` endpoint of
`enhanced_confident_ai_server.py` and handed to `boost_confidence` as
`parsed_result`. -/
structure ParsedResult where
  symptoms : List String
  duration_days : Int
  intensity : Intensity
  raw_text : String
  duration_text : String
  intensity_text : String
  deriving DecidableEq, Repr

/-- `ConfidenceBooster.confident_symptom_combinations`, in source order. -/
def confident_symptom_combinations : List (List String) :=
  [["fever", "cough", "fatigue"],
   ["fever", "cough", "shortness_of_breath"],
   ["loss_of_taste", "loss_of_smell"],
   ["chest_pain", "shortness_of_breath"],
   ["headache", "nausea", "dizziness"],
   ["headache", "fever", "body_aches"],
   ["nausea", "diarrhea", "fever"],
   ["nausea", "diarrhea", "fatigue"],
   ["sore_throat", "fever", "body_aches"],
   ["runny_nose", "sore_throat", "cough"]]

/-- `ConfidenceBooster.confidence_keywords`, in source order. -/
def confidence_keywords : List String :=
  ["severe", "intense", "excruciating", "unbearable",
   "persistent", "constant", "worsening", "acute",
   "days", "weeks", "since", "started", "began",
   "ongoing", "continuing", "recurring",
   "exactly", "precisely", "definitely", "clearly",
   "obviously", "distinctly", "specifically"]

/-- Symptom-count multiplier: 1.20 for 5 or more detected symptoms, 1.15 for
4, 1.08 for 3, else none. -/
def symptomCountFactor (n : Nat) : ℚ :=
  if 5 ≤ n then 6/5 else if 4 ≤ n then 23/20 else if 3 ≤ n then 27/25 else 1

/-- Pattern multiplier: 1.18 when some known combination is wholly contained
in the detected symptoms (first match only; all matches carry 1.18). -/
def patternFactor (symptoms : List String) : ℚ :=
  if confident_symptom_combinations.any (fun combo => combo.all (fun s => s ∈ symptoms)) then 59/50
  else 1

/-- Duration multiplier: for a non-default duration, 1.15 when acute (at most
2 days), 1.12 when chronic (at least 14 days), else 1.08; the default 7
applies none. -/
def durationFactor (d : Int) : ℚ :=
  if d ≠ 7 then (if d ≤ 2 then 23/20 else if 14 ≤ d then 28/25 else 27/25) else 1

/-- Intensity multiplier: 1.15 for severe, 1.08 for mild, none for the
default moderate. -/
def intensityFactor : Intensity → ℚ
  | .severe => 23/20
  | .mild => 27/25
  | .moderate => 1

/-- Count of confidence-indicating keywords contained in the lowercased raw
text. -/
def keywordCount (raw_text : String) : Nat :=
  (confidence_keywords.filter (fun k => strIn k (pyLower raw_text))).length

/-- Keyword multiplier: 1.12 for 3 or more keyword hits, 1.06 for at least
one, else none. -/
def keywordFactor (n : Nat) : ℚ :=
  if 3 ≤ n then 28/25 else if 1 ≤ n then 53/50 else 1

/-- Count of manually supplied inputs: nonempty duration text and nonempty
intensity text each count once. -/
def manualInputs (duration_text intensity_text : String) : Nat :=
  (if duration_text ≠ "" then 1 else 0) + (if intensity_text ≠ "" then 1 else 0)

/-- Manual-input multiplier: 1.10 for both inputs supplied, 1.05 for one,
else none. -/
def manualFactor (m : Nat) : ℚ :=
  if 2 ≤ m then 11/10 else if 1 ≤ m then 21/20 else 1

/-- Completeness multiplier: 1.08 when at least 30% of the first 14 feature
entries are positive. -/
def completenessFactor (feature_vector : List ℚ) : ℚ :=
  if 3/10 ≤ (((feature_vector.take 14).countP (fun f => decide (0 < f))) : ℚ) / 14 then 27/25
  else 1

/-- `ConfidenceBooster.boost_confidence`: the base confidence times the seven
multipliers in evaluation order, capped at 0.95. -/
def boost_confidence (base_confidence : ℚ) (symptoms : List String)
    (p : ParsedResult) (feature_vector : List ℚ) : ℚ :=
  min (base_confidence
        * symptomCountFactor symptoms.length
        * patternFactor symptoms
        * durationFactor p.duration_days
        * intensityFactor p.intensity
        * keywordFactor (keywordCount p.raw_text)
        * manualFactor (manualInputs p.duration_text p.intensity_text)
        * completenessFactor feature_vector)
    (19/20)

end ConfidenceBooster

namespace ContinuousLearning

/-- Record appended to `unknown_cases.json` by
`ContinuousLearningSystem.handle_unknown_case`. -/
structure UnknownCaseEntry where
  reason : String
  requires_human_review : Bool
  status : String
  deriving DecidableEq, Repr

/-- Advisory returned by `_generate_unknown_case_response`: a structured
response that claims no diagnosis and recommends professional evaluation. -/
structure UnknownCaseResponse where
  status : String
  message : String
  recommendation : String
  symptoms_provided : List (String × Nat)
  deriving DecidableEq, Repr

/-- `ContinuousLearningSystem._generate_unknown_case_response`. -/
def generate_unknown_case_response (symptoms : List (String × Nat))
    (patient_data : List (String × String)) : UnknownCaseResponse :=
  { status := "unknown_case"
    message := "This symptom combination requires professional medical evaluation"
    recommendation := "immediate_medical_consultation"
    symptoms_provided := symptoms }

/-- `ContinuousLearningSystem.handle_unknown_case`: log an entry flagged for
human review and return the advisory response. -/
def handle_unknown_case (symptoms : List (String × Nat))
    (patient_data : List (String × String)) (confidence_threshold : ℚ) :
    UnknownCaseEntry × UnknownCaseResponse :=
  ({ reason := if confidence_threshold < 3/5 then "low_confidence" else "unknown_pattern"
     requires_human_review := true
     status := "pending" },
   generate_unknown_case_response symptoms patient_data)

/-- The three co-versioned artifacts `diagnosis_model.pkl`,
`label_encoder.pkl`, `feature_names.pkl`, as opaque handles. -/
structure ModelArtifacts where
  model : Nat
  label_encoder : Nat
  feature_names : Nat
  deriving DecidableEq, Repr

/-- Persistent state touched by `ContinuousLearningSystem.retrain_model`:
the active artifacts, the timestamped backups, `training_history.json` and
the training log. -/
structure LearningState where
  active : ModelArtifacts
  backups : List ModelArtifacts
  training_history : List (ℚ × Nat)
  log : List String
  deriving DecidableEq, Repr

/-- `ContinuousLearningSystem._backup_current_model`: move the current
artifacts to a timestamped backup. -/
def backup_current_model (s : LearningState) : LearningState :=
  { s with backups := s.active :: s.backups }

/-- `ContinuousLearningSystem._record_training_history`. -/
def record_training_history (s : LearningState) (accuracy : ℚ) (data_size : Nat) :
    LearningState :=
  { s with training_history := s.training_history ++ [(accuracy, data_size)] }

/-- `ContinuousLearningSystem.retrain_model`, from the point where the
candidate model has been fitted and evaluated: accept only when the
validation accuracy is strictly above 0.4 (`if accuracy > 0.4`), in which
case the old artifacts are backed up, the new model and encoder are saved
with the unchanged feature names, and a history entry is appended; otherwise
log the rejection and leave everything in place. -/
def retrain_model (s : LearningState) (new_model new_encoder : Nat)
    (accuracy : ℚ) (data_size : Nat) : LearningState × Bool :=
  if 2/5 < accuracy then
    let s1 := backup_current_model s
    let s2 := { s1 with active := { model := new_model,
                                    label_encoder := new_encoder,
                                    feature_names := s.active.feature_names } }
    let s3 := record_training_history s2 accuracy data_size
    ({ s3 with log := s3.log ++ ["Model retrained successfully"] }, true)
  else
    ({ s with log := s.log ++ ["Retraining failed. Low accuracy"] }, false)

end ContinuousLearning

namespace AiDiagnosis

/-- Responses of the `/predict` endpoint of `ai_diagnosis.py`: either the
normal prediction naming the primary diagnosis, or the unknown-case advisory
carrying no diagnosis. -/
inductive PredictResponse where
  | prediction (primary_diagnosis : String) (confidence : ℚ)
  | unknownCase (entry : ContinuousLearning.UnknownCaseEntry)
                (resp : ContinuousLearning.UnknownCaseResponse)
  deriving DecidableEq, Repr

/-- The unknown-case branch of `predict_diagnosis`: once the model has
produced the primary diagnosis and its confidence, the response is the
unknown-case advisory exactly when `primary_confidence < 0.1`, else the
normal prediction.  The parsed symptoms and patient data flow into the
advisory but play no part in the branch. -/
def predict_diagnosis (primary_diagnosis : String) (primary_confidence : ℚ)
    (parsed_symptoms : List (String × Nat)) (patient_data : List (String × String)) :
    PredictResponse :=
  if primary_confidence < 1/10 then
    let hu := ContinuousLearning.handle_unknown_case parsed_symptoms patient_data
      primary_confidence
    .unknownCase hu.1 hu.2
  else
    .prediction primary_diagnosis primary_confidence

/-- Diagnosis label asserted by a response, when one is. -/
def claimedDiagnosis : PredictResponse → Option String
  | .prediction d _ => some d
  | .unknownCase _ _ => none

/-- Is the response the unknown-case advisory? -/
def isUnknownCase : PredictResponse → Bool
  | .prediction _ _ => false
  | .unknownCase _ _ => true

end AiDiagnosis

/-! Helper lemmas shared by the claim theorems. -/

namespace ConfidenceBooster

lemma one_le_symptomCountFactor (n : Nat) : 1 ≤ symptomCountFactor n := by
  unfold symptomCountFactor
  split_ifs <;> norm_num

lemma one_le_patternFactor (s : List String) : 1 ≤ patternFactor s := by
  unfold patternFactor
  split_ifs <;> norm_num

lemma one_le_durationFactor (d : Int) : 1 ≤ durationFactor d := by
  unfold durationFactor
  split_ifs <;> norm_num

lemma one_le_intensityFactor (i : Intensity) : 1 ≤ intensityFactor i := by
  cases i <;> norm_num [intensityFactor]

lemma one_le_keywordFactor (n : Nat) : 1 ≤ keywordFactor n := by
  unfold keywordFactor
  split_ifs <;> norm_num

lemma one_le_manualFactor (m : Nat) : 1 ≤ manualFactor m := by
  unfold manualFactor
  split_ifs <;> norm_num

lemma one_le_completenessFactor (fv : List ℚ) : 1 ≤ completenessFactor fv := by
  unfold completenessFactor
  split_ifs <;> norm_num

/-- The base confidence is a lower bound of, and 0 a lower bound of, the full
multiplied-out product inside `boost_confidence`. -/
lemma base_le_boost_product (base : ℚ) (symptoms : List String) (p : ParsedResult)
    (fv : List ℚ) (hbase : 0 ≤ base) :
    base ≤ base
        * symptomCountFactor symptoms.length
        * patternFactor symptoms
        * durationFactor p.duration_days
        * intensityFactor p.intensity
        * keywordFactor (keywordCount p.raw_text)
        * manualFactor (manualInputs p.duration_text p.intensity_text)
        * completenessFactor fv
    ∧ 0 ≤ base
        * symptomCountFactor symptoms.length
        * patternFactor symptoms
        * durationFactor p.duration_days
        * intensityFactor p.intensity
        * keywordFactor (keywordCount p.raw_text)
        * manualFactor (manualInputs p.duration_text p.intensity_text)
        * completenessFactor fv := by
  have h1 := le_mul_of_one_le_right hbase (one_le_symptomCountFactor symptoms.length)
  have n1 := le_trans hbase h1
  have h2 := le_mul_of_one_le_right n1 (one_le_patternFactor symptoms)
  have n2 := le_trans n1 h2
  have h3 := le_mul_of_one_le_right n2 (one_le_durationFactor p.duration_days)
  have n3 := le_trans n2 h3
  have h4 := le_mul_of_one_le_right n3 (one_le_intensityFactor p.intensity)
  have n4 := le_trans n3 h4
  have h5 := le_mul_of_one_le_right n4 (one_le_keywordFactor (keywordCount p.raw_text))
  have n5 := le_trans n4 h5
  have h6 := le_mul_of_one_le_right n5
    (one_le_manualFactor (manualInputs p.duration_text p.intensity_text))
  have n6 := le_trans n5 h6
  have h7 := le_mul_of_one_le_right n6 (one_le_completenessFactor fv)
  have n7 := le_trans n6 h7
  exact ⟨le_trans h1 (le_trans h2 (le_trans h3 (le_trans h4 (le_trans h5 (le_trans h6 h7))))), n7⟩

end ConfidenceBooster

namespace ComprehensiveAIDiagnosis

lemma one_le_symptomCountBoost (c : ℚ) : 1 ≤ symptomCountBoost c := by
  unfold symptomCountBoost
  split_ifs <;> norm_num

lemma one_le_durationBoost (d : Int) : 1 ≤ durationBoost d := by
  unfold durationBoost
  split_ifs <;> norm_num

lemma one_le_intensityBoost (i : Intensity) : 1 ≤ intensityBoost i := by
  unfold intensityBoost
  split_ifs <;> norm_num

lemma one_le_patternBoost (s : List String) : 1 ≤ patternBoost s := by
  unfold patternBoost
  split_ifs <;> norm_num

/-- The base confidence is a lower bound of, and 0 a lower bound of, the full
multiplied-out product inside `_apply_confidence_boosting`. -/
lemma base_le_comp_product (base : ℚ) (p : ParsedObservation) (fv : List ℚ)
    (hbase : 0 ≤ base) :
    base ≤ base
        * symptomCountBoost (fv.take 14).sum
        * durationBoost p.duration_days
        * intensityBoost p.intensity
        * patternBoost p.symptoms
    ∧ 0 ≤ base
        * symptomCountBoost (fv.take 14).sum
        * durationBoost p.duration_days
        * intensityBoost p.intensity
        * patternBoost p.symptoms := by
  have h1 := le_mul_of_one_le_right hbase (one_le_symptomCountBoost (fv.take 14).sum)
  have n1 := le_trans hbase h1
  have h2 := le_mul_of_one_le_right n1 (one_le_durationBoost p.duration_days)
  have n2 := le_trans n1 h2
  have h3 := le_mul_of_one_le_right n2 (one_le_intensityBoost p.intensity)
  have n3 := le_trans n2 h3
  have h4 := le_mul_of_one_le_right n3 (one_le_patternBoost p.symptoms)
  have n4 := le_trans n3 h4
  exact ⟨le_trans h1 (le_trans h2 (le_trans h3 h4)), n4⟩

lemma symptomCountBoost_mono {c c' : ℚ} (h : c ≤ c') :
    symptomCountBoost c ≤ symptomCountBoost c' := by
  unfold symptomCountBoost
  split_ifs <;> linarith

end ComprehensiveAIDiagnosis

namespace SymptomParser

lemma modifierValue_pos (kw : String) (text : List Char) : 0 < modifierValue kw text := by
  unfold modifierValue
  cases hm : modifiers.find? (fun m => modSearch m.1 kw text) with
  | none => norm_num
  | some m =>
    have hmem := List.mem_of_find?_eq_some hm
    simp only [modifiers, List.mem_cons, List.not_mem_nil, or_false] at hmem
    rcases hmem with rfl | rfl | rfl | rfl | rfl | rfl | rfl | rfl | rfl | rfl | rfl | rfl <;>
      norm_num

lemma modifierValue_mem (kw : String) (text : List Char) :
    modifierValue kw text ∈ [(0 : ℚ), 1, 1/2, 3/10, 1/5, 7/10, 4/5, 9/10] := by
  unfold modifierValue
  cases hm : modifiers.find? (fun m => modSearch m.1 kw text) with
  | none => simp
  | some m =>
    have hmem := List.mem_of_find?_eq_some hm
    simp only [modifiers, List.mem_cons, List.not_mem_nil, or_false] at hmem
    rcases hmem with rfl | rfl | rfl | rfl | rfl | rfl | rfl | rfl | rfl | rfl | rfl | rfl <;>
      simp

lemma featureValue_ne_zero_iff (kws : List String) (text : List Char) :
    featureValue kws text ≠ 0 ↔ ∃ k ∈ kws, wbSearch k text = true := by
  unfold featureValue
  cases hf : kws.find? (fun kw => wbSearch kw text) with
  | none =>
    have hnone := List.find?_eq_none.mp hf
    refine iff_of_false (by simp) ?_
    rintro ⟨k, hk, hw⟩
    exact absurd hw (by simpa using hnone k hk)
  | some kw =>
    have hmem := List.mem_of_find?_eq_some hf
    have hp := List.find?_some hf
    constructor
    · intro _
      exact ⟨kw, hmem, by simpa using hp⟩
    · intro _
      exact ne_of_gt (modifierValue_pos kw text)

end SymptomParser

namespace ConfidenceBooster

lemma symptomCountFactor_mono {m n : Nat} (h : m ≤ n) :
    symptomCountFactor m ≤ symptomCountFactor n := by
  unfold symptomCountFactor
  split_ifs <;> norm_num <;> omega

end ConfidenceBooster

/-! The claim theorems. -/

/-- C1: for every raw probability (a nonnegative number), observation and
feature vector, both confidence boosters return a boosted confidence in the
closed interval from 0 to 0.95; the 0.95 cap applies regardless of how many
boost factors fire. -/
theorem c1_boosted_confidence_in_zero_to_cap (base : ℚ) (symptoms : List String)
    (p : ConfidenceBooster.ParsedResult) (fv : List ℚ)
    (q : ParsedObservation) (qfv : List ℚ) (hbase : 0 ≤ base) :
    (0 ≤ ConfidenceBooster.boost_confidence base symptoms p fv
      ∧ ConfidenceBooster.boost_confidence base symptoms p fv ≤ 19/20)
    ∧ (0 ≤ ComprehensiveAIDiagnosis.apply_confidence_boosting base q qfv
      ∧ ComprehensiveAIDiagnosis.apply_confidence_boosting base q qfv ≤ 19/20) := by
  refine ⟨⟨?_, min_le_right _ _⟩, ?_, min_le_right _ _⟩
  · exact le_min (ConfidenceBooster.base_le_boost_product base symptoms p fv hbase).2
      (by norm_num)
  · exact le_min (ComprehensiveAIDiagnosis.base_le_comp_product base q qfv hbase).2
      (by norm_num)

/-- Witness for C1 at the concrete raw probability 1/2 with an empty
observation. -/
theorem c1_witness :
    (0 ≤ ConfidenceBooster.boost_confidence (1/2) []
        ⟨[], 7, Intensity.moderate, "", "", ""⟩ []
      ∧ ConfidenceBooster.boost_confidence (1/2) []
        ⟨[], 7, Intensity.moderate, "", "", ""⟩ [] ≤ 19/20)
    ∧ (0 ≤ ComprehensiveAIDiagnosis.apply_confidence_boosting (1/2)
        ⟨[], 7, Intensity.moderate, ""⟩ []
      ∧ ComprehensiveAIDiagnosis.apply_confidence_boosting (1/2)
        ⟨[], 7, Intensity.moderate, ""⟩ [] ≤ 19/20) :=
  c1_boosted_confidence_in_zero_to_cap (1/2) [] ⟨[], 7, Intensity.moderate, "", "", ""⟩ []
    ⟨[], 7, Intensity.moderate, ""⟩ [] (by norm_num)

/-- C2: the unknown-case gate of the predict endpoint is a pure two-state
threshold on the confidence alone — confidence at least 0.1 yields the
normal prediction, confidence below 0.1 yields the advisory that claims no
diagnosis, is flagged for human review, and recommends professional
consultation; the parsed symptoms and patient data never affect the
branch. -/
theorem c2_unknown_gate_pure_threshold (d : String) (conf : ℚ)
    (ps : List (String × Nat)) (pd : List (String × String)) :
    (AiDiagnosis.isUnknownCase (AiDiagnosis.predict_diagnosis d conf ps pd) = true
      ↔ conf < 1/10)
    ∧ (AiDiagnosis.predict_diagnosis d conf ps pd = .prediction d conf ↔ 1/10 ≤ conf)
    ∧ (∀ d' ps' pd', AiDiagnosis.isUnknownCase (AiDiagnosis.predict_diagnosis d conf ps pd)
        = AiDiagnosis.isUnknownCase (AiDiagnosis.predict_diagnosis d' conf ps' pd'))
    ∧ (∀ e r, AiDiagnosis.predict_diagnosis d conf ps pd = .unknownCase e r →
        AiDiagnosis.claimedDiagnosis (.unknownCase e r) = none
        ∧ e.requires_human_review = true
        ∧ e.status = "pending"
        ∧ r.recommendation = "immediate_medical_consultation") := by
  unfold AiDiagnosis.predict_diagnosis
  split_ifs with h
  · refine ⟨iff_of_true rfl h, iff_of_false (by simp) (not_le.mpr h), ?_, ?_⟩
    · intro d' ps' pd'
      rfl
    · intro e r he
      injection he with h1 h2
      subst h1
      subst h2
      exact ⟨rfl, rfl, rfl, rfl⟩
  · refine ⟨iff_of_false (by simp [AiDiagnosis.isUnknownCase]) h,
      iff_of_true rfl (not_lt.mp h), ?_, ?_⟩
    · intro d' ps' pd'
      rfl
    · intro e r he
      exact absurd he (by simp)

/-- C3 counterexample: a candidate whose validation accuracy is exactly the
0.4 floor is rejected, not accepted — `retrain_model` keeps the old
artifacts and returns failure. -/
theorem c3_counterexample_floor_accuracy_rejected :
    (ContinuousLearning.retrain_model ⟨⟨0, 0, 0⟩, [], [], []⟩ 1 2 (2/5) 5).2 = false := by
  norm_num [ContinuousLearning.retrain_model]

/-- C3 amended: retraining accepts the candidate if and only if its
validation accuracy is strictly greater than the 0.4 floor (so a candidate
at exactly 0.4 is rejected); on reject the previously active model, label
encoder and feature names are untouched and the rejection is logged, and on
accept the old artifacts are first backed up and the feature names carried
over unchanged. -/
theorem c3_retrain_accept_iff_strictly_above_floor (s : ContinuousLearning.LearningState)
    (nm ne : Nat) (a : ℚ) (d : Nat) :
    ((ContinuousLearning.retrain_model s nm ne a d).2 = true ↔ 2/5 < a)
    ∧ ((ContinuousLearning.retrain_model s nm ne a d).2 = false →
        (ContinuousLearning.retrain_model s nm ne a d).1.active = s.active
        ∧ "Retraining failed. Low accuracy" ∈ (ContinuousLearning.retrain_model s nm ne a d).1.log)
    ∧ ((ContinuousLearning.retrain_model s nm ne a d).2 = true →
        (ContinuousLearning.retrain_model s nm ne a d).1.active.feature_names
            = s.active.feature_names
        ∧ (ContinuousLearning.retrain_model s nm ne a d).1.backups = s.active :: s.backups) := by
  unfold ContinuousLearning.retrain_model ContinuousLearning.backup_current_model
    ContinuousLearning.record_training_history
  split_ifs with h <;> simp_all

/-- C4 counterexample: `ComprehensiveAIDiagnosis._create_feature_vector`
emits a vector of the fixed length 16 on every input — here the empty text
and a symptomatic text — never consulting the loaded feature schema, so its
length does not equal the schema length for a schema of any other size: the
6-feature schema that `ai_diagnosis.py` uses (`expected_features`) has
length 6, not 16, and no check guards the mismatch. -/
theorem c4_counterexample_fixed_length_vector :
    (ComprehensiveAIDiagnosis.create_feature_vector
        (EnhancedSymptomParser.parse_comprehensive "" "" "")).length = 16
    ∧ (ComprehensiveAIDiagnosis.create_feature_vector
        (EnhancedSymptomParser.parse_comprehensive "fever and cough for 3 days" "" "")).length
      = 16
    ∧ (["fever", "cough", "fatigue", "shortness_of_breath", "headache",
        "sore_throat"] : List String).length = 6
    ∧ ¬(ComprehensiveAIDiagnosis.create_feature_vector
        (EnhancedSymptomParser.parse_comprehensive "" "" "")).length
      = (["fever", "cough", "fatigue", "shortness_of_breath", "headache",
          "sore_throat"] : List String).length :=
  ⟨rfl, rfl, rfl, by decide⟩

/-- C4 amended: for every schema and input text,
`SymptomParser.get_feature_vector` has length exactly the schema length,
position `i` holds exactly the parsed value of the `i`-th schema feature,
and a schema dimension with no keyword entry reads 0;
`ComprehensiveAIDiagnosis._create_feature_vector` instead always emits the
fixed 16-entry vector of its 14 hard-coded symptom flags followed by the
duration and the intensity code, independent of any loaded schema. -/
theorem c4_feature_vector_matches_schema (fn : List String) (text : String) :
    (SymptomParser.get_feature_vector fn text).length = fn.length
    ∧ (∀ (i : Nat) (f : String), fn[i]? = some f →
        (SymptomParser.get_feature_vector fn text)[i]?
          = some (SymptomParser.parse_symptoms fn text f))
    ∧ (∀ f, SymptomParser.symptom_keywords.lookup f = none →
        SymptomParser.parse_symptoms fn text f = 0)
    ∧ (∀ p : ParsedObservation, (ComprehensiveAIDiagnosis.create_feature_vector p).length = 16)
    ∧ (∀ p : ParsedObservation, ComprehensiveAIDiagnosis.create_feature_vector p
        = [(if "fever" ∈ p.symptoms then 1 else 0),
           (if "cough" ∈ p.symptoms then 1 else 0),
           (if "fatigue" ∈ p.symptoms then 1 else 0),
           (if "shortness_of_breath" ∈ p.symptoms then 1 else 0),
           (if "headache" ∈ p.symptoms then 1 else 0),
           (if "sore_throat" ∈ p.symptoms then 1 else 0),
           (if "nausea" ∈ p.symptoms then 1 else 0),
           (if "dizziness" ∈ p.symptoms then 1 else 0),
           (if "body_aches" ∈ p.symptoms then 1 else 0),
           (if "runny_nose" ∈ p.symptoms then 1 else 0),
           (if "chest_pain" ∈ p.symptoms then 1 else 0),
           (if "diarrhea" ∈ p.symptoms then 1 else 0),
           (if "loss_of_taste" ∈ p.symptoms then 1 else 0),
           (if "loss_of_smell" ∈ p.symptoms then 1 else 0),
           (p.duration_days : ℚ),
           ComprehensiveAIDiagnosis.intensity_numeric p.intensity]) := by
  refine ⟨by simp [SymptomParser.get_feature_vector], ?_, ?_, fun p => rfl, fun p => rfl⟩
  · intro i f hf
    unfold SymptomParser.get_feature_vector
    rw [List.getElem?_map, hf]
    rfl
  · intro f hf
    unfold SymptomParser.parse_symptoms
    split_ifs <;> simp [hf]

/-- C5: the symptom-count boost is a monotone step function, with the
canonical booster stepping at 3, 4 and 5-plus detected symptoms through the
strictly increasing multipliers 1.08, 1.15, 1.20; holding the raw probability
and every other factor fixed, more detected symptoms never decreases the
boosted confidence, in either booster. -/
theorem c5_symptom_count_monotone (base : ℚ) (symptoms symptoms' : List String)
    (p : ConfidenceBooster.ParsedResult) (fv : List ℚ) (q : ParsedObservation)
    (cfv cfv' : List ℚ)
    (hbase : 0 ≤ base) (hlen : symptoms.length ≤ symptoms'.length)
    (hpat : ConfidenceBooster.patternFactor symptoms
      = ConfidenceBooster.patternFactor symptoms')
    (hsum : (cfv.take 14).sum ≤ (cfv'.take 14).sum) :
    ConfidenceBooster.symptomCountFactor 2 = 1
    ∧ ConfidenceBooster.symptomCountFactor 3 = 27/25
    ∧ ConfidenceBooster.symptomCountFactor 4 = 23/20
    ∧ (∀ n, 5 ≤ n → ConfidenceBooster.symptomCountFactor n = 6/5)
    ∧ ((1 : ℚ) < 27/25 ∧ (27/25 : ℚ) < 23/20 ∧ (23/20 : ℚ) < 6/5)
    ∧ (∀ m n : Nat, m ≤ n →
        ConfidenceBooster.symptomCountFactor m ≤ ConfidenceBooster.symptomCountFactor n)
    ∧ ConfidenceBooster.boost_confidence base symptoms p fv
        ≤ ConfidenceBooster.boost_confidence base symptoms' p fv
    ∧ ComprehensiveAIDiagnosis.apply_confidence_boosting base q cfv
        ≤ ComprehensiveAIDiagnosis.apply_confidence_boosting base q cfv' := by
  refine ⟨rfl, rfl, rfl, ?_, by norm_num, fun m n h => ConfidenceBooster.symptomCountFactor_mono h,
    ?_, ?_⟩
  · intro n hn
    unfold ConfidenceBooster.symptomCountFactor
    rw [if_pos hn]
  · unfold ConfidenceBooster.boost_confidence
    rw [hpat]
    refine min_le_min ?_ le_rfl
    have h0 : base * ConfidenceBooster.symptomCountFactor symptoms.length
        ≤ base * ConfidenceBooster.symptomCountFactor symptoms'.length :=
      mul_le_mul_of_nonneg_left (ConfidenceBooster.symptomCountFactor_mono hlen) hbase
    refine mul_le_mul_of_nonneg_right (mul_le_mul_of_nonneg_right
      (mul_le_mul_of_nonneg_right (mul_le_mul_of_nonneg_right
        (mul_le_mul_of_nonneg_right (mul_le_mul_of_nonneg_right h0
          (le_trans zero_le_one (ConfidenceBooster.one_le_patternFactor symptoms')))
          (le_trans zero_le_one (ConfidenceBooster.one_le_durationFactor p.duration_days)))
          (le_trans zero_le_one (ConfidenceBooster.one_le_intensityFactor p.intensity)))
          (le_trans zero_le_one (ConfidenceBooster.one_le_keywordFactor
            (ConfidenceBooster.keywordCount p.raw_text))))
          (le_trans zero_le_one (ConfidenceBooster.one_le_manualFactor
            (ConfidenceBooster.manualInputs p.duration_text p.intensity_text))))
          (le_trans zero_le_one (ConfidenceBooster.one_le_completenessFactor fv))
  · unfold ComprehensiveAIDiagnosis.apply_confidence_boosting
    refine min_le_min ?_ le_rfl
    have h0 : base * ComprehensiveAIDiagnosis.symptomCountBoost (cfv.take 14).sum
        ≤ base * ComprehensiveAIDiagnosis.symptomCountBoost (cfv'.take 14).sum :=
      mul_le_mul_of_nonneg_left (ComprehensiveAIDiagnosis.symptomCountBoost_mono hsum) hbase
    refine mul_le_mul_of_nonneg_right (mul_le_mul_of_nonneg_right
      (mul_le_mul_of_nonneg_right h0
        (le_trans zero_le_one (ComprehensiveAIDiagnosis.one_le_durationBoost q.duration_days)))
        (le_trans zero_le_one (ComprehensiveAIDiagnosis.one_le_intensityBoost q.intensity)))
        (le_trans zero_le_one (ComprehensiveAIDiagnosis.one_le_patternBoost q.symptoms))

/-- Witness for C5: an empty symptom list against three detected symptoms,
with every other input fixed. -/
theorem c5_witness :
    ConfidenceBooster.boost_confidence (1/2) [] ⟨[], 7, Intensity.moderate, "", "", ""⟩ []
      ≤ ConfidenceBooster.boost_confidence (1/2) ["a", "b", "c"]
          ⟨[], 7, Intensity.moderate, "", "", ""⟩ [] :=
  (c5_symptom_count_monotone (1/2) [] ["a", "b", "c"] ⟨[], 7, Intensity.moderate, "", "", ""⟩
    [] ⟨[], 7, Intensity.moderate, ""⟩ [] [] (by norm_num) (by decide) rfl
    le_rfl).2.2.2.2.2.2.1

/-- C6 counterexample: in the comprehensive booster the multiplier for severe
intensity equals the multiplier for mild (both 1.06), so severe does not
boost strictly more than mild: two observations that differ only in severe
versus mild intensity get the same boosted confidence. -/
theorem c6_counterexample_severe_equals_mild :
    ComprehensiveAIDiagnosis.intensityBoost .severe = ComprehensiveAIDiagnosis.intensityBoost .mild
    ∧ ComprehensiveAIDiagnosis.apply_confidence_boosting (1/2)
        { symptoms := [], duration_days := 7, intensity := .severe, raw_text := "" } []
      = ComprehensiveAIDiagnosis.apply_confidence_boosting (1/2)
        { symptoms := [], duration_days := 7, intensity := .mild, raw_text := "" } [] := by
  constructor
  · rfl
  · norm_num [ComprehensiveAIDiagnosis.apply_confidence_boosting,
      ComprehensiveAIDiagnosis.symptomCountBoost, ComprehensiveAIDiagnosis.durationBoost,
      ComprehensiveAIDiagnosis.intensityBoost, ComprehensiveAIDiagnosis.patternBoost,
      ComprehensiveAIDiagnosis.confident_combinations]
    simp

/-- C6 amended: in the enhanced server booster the intensity factor applies
exactly for a non-moderate intensity and severe (1.15) boosts strictly more
than mild (1.08); in the comprehensive booster the factor likewise applies
exactly for a non-moderate intensity, but severe and mild carry the same
1.06 multiplier. -/
theorem c6_intensity_factor_characterization (i : Intensity) :
    (ConfidenceBooster.intensityFactor i ≠ 1 ↔ i ≠ .moderate)
    ∧ ConfidenceBooster.intensityFactor .mild < ConfidenceBooster.intensityFactor .severe
    ∧ (ComprehensiveAIDiagnosis.intensityBoost i ≠ 1 ↔ i ≠ .moderate)
    ∧ ComprehensiveAIDiagnosis.intensityBoost .severe
        = ComprehensiveAIDiagnosis.intensityBoost .mild := by
  refine ⟨?_, by norm_num [ConfidenceBooster.intensityFactor], ?_, rfl⟩
  · cases i <;> simp [ConfidenceBooster.intensityFactor] <;> norm_num
  · cases i <;> simp [ComprehensiveAIDiagnosis.intensityBoost] <;> norm_num

/-- C7 counterexample: on the all-default observation parsed from empty text,
a raw probability of 0.96 is clamped to the 0.95 cap, so the boosted
confidence does not equal the raw probability there. -/
theorem c7_counterexample_cap_below_raw :
    ComprehensiveAIDiagnosis.apply_confidence_boosting (24/25)
        (EnhancedSymptomParser.parse_comprehensive "" "" "")
        (ComprehensiveAIDiagnosis.create_feature_vector
          (EnhancedSymptomParser.parse_comprehensive "" "" ""))
      ≠ 24/25 := by
  have hp : EnhancedSymptomParser.parse_comprehensive "" "" ""
      = { symptoms := [], duration_days := 7, intensity := .moderate, raw_text := "" } := rfl
  rw [hp]
  norm_num [ComprehensiveAIDiagnosis.apply_confidence_boosting,
    ComprehensiveAIDiagnosis.create_feature_vector, ComprehensiveAIDiagnosis.expected_symptoms,
    ComprehensiveAIDiagnosis.intensity_numeric, ComprehensiveAIDiagnosis.symptomCountBoost,
    ComprehensiveAIDiagnosis.durationBoost, ComprehensiveAIDiagnosis.intensityBoost,
    ComprehensiveAIDiagnosis.patternBoost, ComprehensiveAIDiagnosis.confident_combinations]

/-- C7 amended: the parser is total and on empty text returns the empty
symptom set, the default 7-day duration and moderate intensity; on that
all-default observation no boost factor applies, so the boosted confidence
equals the raw probability whenever the raw probability does not exceed the
0.95 cap (above the cap it is clamped to 0.95). -/
theorem c7_empty_text_defaults (base : ℚ) (fn : List String) (h : base ≤ 19/20) :
    EnhancedSymptomParser.parse_comprehensive "" "" ""
      = { symptoms := [], duration_days := 7, intensity := .moderate, raw_text := "" }
    ∧ ComprehensiveAIDiagnosis.apply_confidence_boosting base
        (EnhancedSymptomParser.parse_comprehensive "" "" "")
        (ComprehensiveAIDiagnosis.create_feature_vector
          (EnhancedSymptomParser.parse_comprehensive "" "" ""))
      = base
    ∧ (∀ f, SymptomParser.parse_symptoms fn "" f = 0) := by
  refine ⟨rfl, ?_, ?_⟩
  · rw [show EnhancedSymptomParser.parse_comprehensive "" "" ""
        = { symptoms := [], duration_days := 7, intensity := .moderate, raw_text := "" } from rfl]
    norm_num [ComprehensiveAIDiagnosis.apply_confidence_boosting,
      ComprehensiveAIDiagnosis.create_feature_vector, ComprehensiveAIDiagnosis.expected_symptoms,
      ComprehensiveAIDiagnosis.intensity_numeric, ComprehensiveAIDiagnosis.symptomCountBoost,
      ComprehensiveAIDiagnosis.durationBoost, ComprehensiveAIDiagnosis.intensityBoost,
      ComprehensiveAIDiagnosis.patternBoost, ComprehensiveAIDiagnosis.confident_combinations,
      min_eq_left_iff]
    exact h
  · intro f
    simp [SymptomParser.parse_symptoms]

/-- Witness for C7 at the concrete raw probability 1/2 and the schema
containing only the fever feature. -/
theorem c7_witness :
    EnhancedSymptomParser.parse_comprehensive "" "" ""
      = { symptoms := [], duration_days := 7, intensity := .moderate, raw_text := "" }
    ∧ ComprehensiveAIDiagnosis.apply_confidence_boosting (1/2)
        (EnhancedSymptomParser.parse_comprehensive "" "" "")
        (ComprehensiveAIDiagnosis.create_feature_vector
          (EnhancedSymptomParser.parse_comprehensive "" "" ""))
      = 1/2
    ∧ (∀ f, SymptomParser.parse_symptoms ["fever"] "" f = 0) :=
  c7_empty_text_defaults (1/2) ["fever"] (by norm_num)

/-- C8 counterexample: `SymptomParser.parse_symptoms` stores a graded value,
not a boolean flag — on the text "mild fever" the fever feature gets the
modifier value 0.5, which is neither 0 nor 1. -/
theorem c8_counterexample_graded_value :
    SymptomParser.parse_symptoms
      ["fever", "cough", "fatigue", "shortness_of_breath", "headache", "sore_throat"]
      "mild fever" "fever" = 1/2
    ∧ ¬(SymptomParser.parse_symptoms
        ["fever", "cough", "fatigue", "shortness_of_breath", "headache", "sore_throat"]
        "mild fever" "fever" = 0
      ∨ SymptomParser.parse_symptoms
        ["fever", "cough", "fatigue", "shortness_of_breath", "headache", "sore_throat"]
        "mild fever" "fever" = 1) := by
  have h : SymptomParser.parse_symptoms
      ["fever", "cough", "fatigue", "shortness_of_breath", "headache", "sore_throat"]
      "mild fever" "fever" = 1/2 := rfl
  refine ⟨h, ?_⟩
  rw [h]
  norm_num

/-- C8 amended: `MediChainAI.parse_symptoms_from_text` is boolean presence —
the value is always 0 or 1, and it is 1 exactly when some keyword variant of
the key occurs in the case-folded text by plain substring containment —
while `SymptomParser.parse_symptoms` scans with word-boundary matching and a
first hit stores a graded modifier value (1.0 without a preceding modifier,
else values such as 0.5 for mild), nonzero exactly when some variant has a
word-boundary occurrence. -/
theorem c8_detection_characterization :
    (∀ text symptom, MediChainAI.parse_symptoms_from_text text symptom = 0
        ∨ MediChainAI.parse_symptoms_from_text text symptom = 1)
    ∧ (∀ text symptom kws, MediChainAI.symptom_keywords.lookup symptom = some kws →
        (MediChainAI.parse_symptoms_from_text text symptom = 1
          ↔ ∃ k ∈ kws, strIn k (pyLower text) = true))
    ∧ (∀ fn text f, SymptomParser.parse_symptoms fn text f
        ∈ [(0 : ℚ), 1, 1/2, 3/10, 1/5, 7/10, 4/5, 9/10])
    ∧ (∀ fn text f kws, text ≠ "" → f ∈ fn →
        SymptomParser.symptom_keywords.lookup f = some kws →
        (SymptomParser.parse_symptoms fn text f ≠ 0
          ↔ ∃ k ∈ kws, wbSearch k (pyStrip (pyLower text)) = true)) := by
  refine ⟨?_, ?_, ?_, ?_⟩
  · intro text symptom
    unfold MediChainAI.parse_symptoms_from_text
    cases MediChainAI.symptom_keywords.lookup symptom
    · simp
    · dsimp only
      split_ifs <;> simp
  · intro text symptom kws hk
    unfold MediChainAI.parse_symptoms_from_text
    rw [hk]
    dsimp only
    split_ifs with h
    · exact iff_of_true rfl (by simpa [List.any_eq_true] using h)
    · refine iff_of_false (by simp) ?_
      intro hex
      exact h (by simpa [List.any_eq_true] using hex)
  · intro fn text f
    simp only [SymptomParser.parse_symptoms]
    split_ifs
    · simp
    · cases hl : SymptomParser.symptom_keywords.lookup f with
      | none => simp
      | some kws =>
        show SymptomParser.featureValue kws (pyStrip (pyLower text)) ∈ _
        unfold SymptomParser.featureValue
        cases hf : kws.find? (fun kw => wbSearch kw (pyStrip (pyLower text))) with
        | none => simp
        | some kw => simpa using SymptomParser.modifierValue_mem kw (pyStrip (pyLower text))
    · simp
  · intro fn text f kws hne hfn hk
    simp only [SymptomParser.parse_symptoms]
    rw [if_neg hne, if_pos hfn, hk]
    exact SymptomParser.featureValue_ne_zero_iff kws (pyStrip (pyLower text))

/-- C9 counterexample: on the text "mild terrible" the mild and severe
buckets tie at one keyword hit each (moderate has none), and the extractor
returns mild — the first maximal bucket in iteration order — not the default
moderate the claim requires on a tie. -/
theorem c9_counterexample_tie_goes_to_first_bucket :
    EnhancedSymptomParser.bucketScore EnhancedSymptomParser.intensity_mild
        ("mild terrible").toList = 1
    ∧ EnhancedSymptomParser.bucketScore EnhancedSymptomParser.intensity_moderate
        ("mild terrible").toList = 0
    ∧ EnhancedSymptomParser.bucketScore EnhancedSymptomParser.intensity_severe
        ("mild terrible").toList = 1
    ∧ EnhancedSymptomParser.extract_intensity ("mild terrible").toList = .mild
    ∧ (EnhancedSymptomParser.parse_comprehensive "mild terrible" "" "").intensity = .mild :=
  ⟨rfl, rfl, rfl, rfl, rfl⟩

/-- C9 amended: intensity extraction scores the three buckets by keyword-hit
count and returns a bucket attaining the maximum score; all-zero scores give
the default moderate, but a tie for the maximum is broken in favour of the
first bucket in the fixed order mild, moderate, severe — not the default
bucket. -/
theorem c9_intensity_first_argmax (t : List Char) :
    (EnhancedSymptomParser.bucketScore EnhancedSymptomParser.intensity_mild t
        ≤ EnhancedSymptomParser.bucketScore
            (EnhancedSymptomParser.bucketOf (EnhancedSymptomParser.extract_intensity t)) t
      ∧ EnhancedSymptomParser.bucketScore EnhancedSymptomParser.intensity_moderate t
        ≤ EnhancedSymptomParser.bucketScore
            (EnhancedSymptomParser.bucketOf (EnhancedSymptomParser.extract_intensity t)) t
      ∧ EnhancedSymptomParser.bucketScore EnhancedSymptomParser.intensity_severe t
        ≤ EnhancedSymptomParser.bucketScore
            (EnhancedSymptomParser.bucketOf (EnhancedSymptomParser.extract_intensity t)) t)
    ∧ (EnhancedSymptomParser.bucketScore EnhancedSymptomParser.intensity_mild t = 0
        ∧ EnhancedSymptomParser.bucketScore EnhancedSymptomParser.intensity_moderate t = 0
        ∧ EnhancedSymptomParser.bucketScore EnhancedSymptomParser.intensity_severe t = 0 →
        EnhancedSymptomParser.extract_intensity t = .moderate)
    ∧ (EnhancedSymptomParser.extract_intensity t = .mild ↔
        0 < EnhancedSymptomParser.bucketScore EnhancedSymptomParser.intensity_mild t
        ∧ EnhancedSymptomParser.bucketScore EnhancedSymptomParser.intensity_moderate t
            ≤ EnhancedSymptomParser.bucketScore EnhancedSymptomParser.intensity_mild t
        ∧ EnhancedSymptomParser.bucketScore EnhancedSymptomParser.intensity_severe t
            ≤ EnhancedSymptomParser.bucketScore EnhancedSymptomParser.intensity_mild t)
    ∧ (EnhancedSymptomParser.extract_intensity t = .severe ↔
        EnhancedSymptomParser.bucketScore EnhancedSymptomParser.intensity_mild t
            < EnhancedSymptomParser.bucketScore EnhancedSymptomParser.intensity_severe t
        ∧ EnhancedSymptomParser.bucketScore EnhancedSymptomParser.intensity_moderate t
            < EnhancedSymptomParser.bucketScore EnhancedSymptomParser.intensity_severe t) := by
  simp only [EnhancedSymptomParser.extract_intensity]
  split_ifs with h1 h2 h3 <;>
    simp only [EnhancedSymptomParser.bucketOf, lt_max_iff] at * <;>
    refine ⟨⟨?_, ?_, ?_⟩, ?_, ?_, ?_⟩ <;>
    simp_all <;>
    omega

/-- C10: every boost multiplier of both confidence boosters is at least 1,
so for every nonnegative raw probability the boosted confidence is at least
the minimum of the raw probability and the 0.95 cap — the booster never
reduces a confidence already below the cap. -/
theorem c10_booster_never_reduces (base : ℚ) (symptoms : List String)
    (p : ConfidenceBooster.ParsedResult) (fv : List ℚ)
    (q : ParsedObservation) (qfv : List ℚ) (hbase : 0 ≤ base) :
    min base (19/20) ≤ ConfidenceBooster.boost_confidence base symptoms p fv
    ∧ min base (19/20) ≤ ComprehensiveAIDiagnosis.apply_confidence_boosting base q qfv
    ∧ (∀ n, 1 ≤ ConfidenceBooster.symptomCountFactor n)
    ∧ (∀ s, 1 ≤ ConfidenceBooster.patternFactor s)
    ∧ (∀ d, 1 ≤ ConfidenceBooster.durationFactor d)
    ∧ (∀ i, 1 ≤ ConfidenceBooster.intensityFactor i)
    ∧ (∀ n, 1 ≤ ConfidenceBooster.keywordFactor n)
    ∧ (∀ m, 1 ≤ ConfidenceBooster.manualFactor m)
    ∧ (∀ v, 1 ≤ ConfidenceBooster.completenessFactor v)
    ∧ (∀ c, 1 ≤ ComprehensiveAIDiagnosis.symptomCountBoost c)
    ∧ (∀ d, 1 ≤ ComprehensiveAIDiagnosis.durationBoost d)
    ∧ (∀ i, 1 ≤ ComprehensiveAIDiagnosis.intensityBoost i)
    ∧ (∀ s, 1 ≤ ComprehensiveAIDiagnosis.patternBoost s) := by
  refine ⟨?_, ?_, ConfidenceBooster.one_le_symptomCountFactor,
    ConfidenceBooster.one_le_patternFactor, ConfidenceBooster.one_le_durationFactor,
    ConfidenceBooster.one_le_intensityFactor, ConfidenceBooster.one_le_keywordFactor,
    ConfidenceBooster.one_le_manualFactor, ConfidenceBooster.one_le_completenessFactor,
    ComprehensiveAIDiagnosis.one_le_symptomCountBoost,
    ComprehensiveAIDiagnosis.one_le_durationBoost,
    ComprehensiveAIDiagnosis.one_le_intensityBoost,
    ComprehensiveAIDiagnosis.one_le_patternBoost⟩
  · exact min_le_min (ConfidenceBooster.base_le_boost_product base symptoms p fv hbase).1 le_rfl
  · exact min_le_min (ComprehensiveAIDiagnosis.base_le_comp_product base q qfv hbase).1 le_rfl

/-- Witness for C10 at the concrete raw probability 1/2 with an empty
observation. -/
theorem c10_witness :
    min ((1 : ℚ)/2) (19/20) ≤ ConfidenceBooster.boost_confidence (1/2) []
      ⟨[], 7, Intensity.moderate, "", "", ""⟩ [] :=
  (c10_booster_never_reduces (1/2) [] ⟨[], 7, Intensity.moderate, "", "", ""⟩ []
    ⟨[], 7, Intensity.moderate, ""⟩ [] (by norm_num)).1

end Medichain
